import Mathlib

/-!
Verification of the Bugzilla MCP server (`server.py`).

The server exposes six tools (`get_bug`, `get_bug_history`, `search_bugs`,
`create_bug`, `update_bug`, `get_bug_comments`).  Each tool builds exactly one
HTTP request from its arguments and the configured credentials, issues it via
the `requests` library, and either returns the parsed JSON body, returns a
distinguished "Bug not found" value, or raises an exception.

We embed this shallowly: the HTTP layer is a function `Backend` from requests
to results, Python exceptions become an error type `PyError` in `Except`, and
each tool becomes a pure Lean function of the configuration, the backend and
its arguments.
-/

namespace BugzillaMCP

/-- A JSON value, as produced by `response.json()` or passed as a
`Dict[str, Any]` argument. -/
inductive Json where
  | null : Json
  | bool : Bool → Json
  | num : Int → Json
  | str : String → Json
  | arr : List Json → Json
  | obj : List (String × Json) → Json

/-- HTTP method used by `requests.get` / `requests.post` / `requests.put`. -/
inductive Method where
  | GET : Method
  | POST : Method
  | PUT : Method
deriving DecidableEq

/-- The single outbound HTTP request a tool issues: method, URL, query
parameters (`params=`), optional JSON body (`json=`), the TLS-verification
flag (`verify=`) and the headers (`headers=`). -/
structure HttpRequest where
  method : Method
  url : String
  params : List (String × String)
  body : Option Json
  verify : Bool
  headers : List (String × String)

/-- What issuing a request can produce: an HTTP response with a status code
and a body (`none` models a body that is not valid JSON, so that
`response.json()` raises), or a transport-level failure (connection refused
or timeout raised inside `requests`). -/
inductive HttpResult where
  | response : Nat → Option Json → HttpResult
  | connectionRefused : HttpResult
  | timeout : HttpResult

/-- The Python exceptions a tool call can terminate with:
`ValueError(msg)` raised explicitly by the tool on a non-success status,
`requests.exceptions.ConnectionError`, a timeout exception from `requests`,
or `requests.exceptions.JSONDecodeError` from `response.json()`. -/
inductive PyError where
  | valueError : String → PyError
  | connectionError : PyError
  | timeoutError : PyError
  | jsonDecodeError : PyError
deriving DecidableEq

/-- The rest of the world: a (fixed) mapping from requests to what the
`requests` call observes. -/
def Backend : Type := HttpRequest → HttpResult

/-- The configuration read at module load from the environment:
`BUGZILLA_API_URL` and `BUGZILLA_API_KEY`.  Both are required. -/
structure Config where
  apiUrl : String
  apiKey : String

/-- The constant `HEADERS` dict of `server.py`. -/
def HEADERS : List (String × String) :=
  [("Content-Type", "application/json"), ("Accept", "application/json")]

/-- Python dict update: setting key `k` to `v` replaces the value at an
existing key in place, otherwise appends the new pair at the end. -/
def dictInsert (ps : List (String × String)) (k v : String) :
    List (String × String) :=
  match ps with
  | [] => [(k, v)]
  | p :: rest => if p.1 = k then (k, v) :: rest else p :: dictInsert rest k v

/-- Python `\x7b**a, **b\x7d` dict merge: start from `ps` and insert every
pair of `extra` in order, later keys overriding earlier ones. -/
def dictMerge (ps extra : List (String × String)) : List (String × String) :=
  extra.foldl (fun acc p => dictInsert acc p.1 p.2) ps

/-- Look a key up in a query-parameter dict. -/
def getParam (ps : List (String × String)) (k : String) : Option String :=
  match ps with
  | [] => none
  | p :: rest => if p.1 = k then some p.2 else getParam rest k

/-- Whether a dict contains a key. -/
def containsKey (ps : List (String × String)) (k : String) : Bool :=
  ps.any (fun p => decide (p.1 = k))

/-- The value `\x7b"error": "Bug not found"\x7d` returned by the
lookup-by-id tools on HTTP 404. -/
def notFoundJson : Json := Json.obj [("error", Json.str "Bug not found")]

/-- The request built by `get_bug`:
`GET \x7bBUGZILLA_API_URL\x7dbug` with params
`\x7b"id": bug_ids, "api_key": BUGZILLA_API_KEY\x7d`, `verify=False`. -/
def get_bug_req (cfg : Config) (bug_ids : String) : HttpRequest :=
  { method := Method.GET
    url := cfg.apiUrl ++ "bug"
    params := [("id", bug_ids), ("api_key", cfg.apiKey)]
    body := none
    verify := false
    headers := HEADERS }

/-- `get_bug`: non-200 status is an error, except 404 which returns the
"Bug not found" value; on 200 the parsed JSON body is returned unchanged. -/
def get_bug (cfg : Config) (backend : Backend) (bug_ids : String) :
    Except PyError Json :=
  match backend (get_bug_req cfg bug_ids) with
  | HttpResult.connectionRefused => Except.error PyError.connectionError
  | HttpResult.timeout => Except.error PyError.timeoutError
  | HttpResult.response status body =>
    if status ≠ 200 then
      if status = 404 then Except.ok notFoundJson
      else Except.error (PyError.valueError "Failed to fetch Bugzilla bug details.")
    else
      match body with
      | some j => Except.ok j
      | none => Except.error PyError.jsonDecodeError

/-- The request built by `get_bug_history`:
`GET \x7bBUGZILLA_API_URL\x7dbug/\x7bbug_id\x7d/history` with params
`\x7b"new_since": new_since, "api_key": BUGZILLA_API_KEY\x7d`. -/
def get_bug_history_req (cfg : Config) (bug_id new_since : String) :
    HttpRequest :=
  { method := Method.GET
    url := cfg.apiUrl ++ "bug/" ++ bug_id ++ "/history"
    params := [("new_since", new_since), ("api_key", cfg.apiKey)]
    body := none
    verify := false
    headers := HEADERS }

/-- `get_bug_history` (default `new_since = "1970-01-01"`): same response
handling as `get_bug`, with its own failure message. -/
def get_bug_history (cfg : Config) (backend : Backend) (bug_id : String)
    (new_since : String := "1970-01-01") : Except PyError Json :=
  match backend (get_bug_history_req cfg bug_id new_since) with
  | HttpResult.connectionRefused => Except.error PyError.connectionError
  | HttpResult.timeout => Except.error PyError.timeoutError
  | HttpResult.response status body =>
    if status ≠ 200 then
      if status = 404 then Except.ok notFoundJson
      else Except.error (PyError.valueError "Failed to fetch Bugzilla bug history.")
    else
      match body with
      | some j => Except.ok j
      | none => Except.error PyError.jsonDecodeError

/-- The request built by `search_bugs`:
`GET \x7bBUGZILLA_API_URL\x7dbug` with params
`\x7b"api_key": BUGZILLA_API_KEY, **query_strs\x7d`. -/
def search_bugs_req (cfg : Config) (query_strs : List (String × String)) :
    HttpRequest :=
  { method := Method.GET
    url := cfg.apiUrl ++ "bug"
    params := dictMerge [("api_key", cfg.apiKey)] query_strs
    body := none
    verify := false
    headers := HEADERS }

/-- `search_bugs`: any non-200 status (404 included) raises. -/
def search_bugs (cfg : Config) (backend : Backend)
    (query_strs : List (String × String)) : Except PyError Json :=
  match backend (search_bugs_req cfg query_strs) with
  | HttpResult.connectionRefused => Except.error PyError.connectionError
  | HttpResult.timeout => Except.error PyError.timeoutError
  | HttpResult.response status body =>
    if status ≠ 200 then
      Except.error (PyError.valueError "Failed to search Bugzilla bugs.")
    else
      match body with
      | some j => Except.ok j
      | none => Except.error PyError.jsonDecodeError

/-- The request built by `create_bug`:
`POST \x7bBUGZILLA_API_URL\x7dbug` with `json=bug_data` and params
`\x7b"api_key": BUGZILLA_API_KEY\x7d`. -/
def create_bug_req (cfg : Config) (bug_data : List (String × Json)) :
    HttpRequest :=
  { method := Method.POST
    url := cfg.apiUrl ++ "bug"
    params := [("api_key", cfg.apiKey)]
    body := some (Json.obj bug_data)
    verify := false
    headers := HEADERS }

/-- `create_bug`: only status 201 is success; any other status raises. -/
def create_bug (cfg : Config) (backend : Backend)
    (bug_data : List (String × Json)) : Except PyError Json :=
  match backend (create_bug_req cfg bug_data) with
  | HttpResult.connectionRefused => Except.error PyError.connectionError
  | HttpResult.timeout => Except.error PyError.timeoutError
  | HttpResult.response status body =>
    if status ≠ 201 then
      Except.error (PyError.valueError "Failed to create Bugzilla bug.")
    else
      match body with
      | some j => Except.ok j
      | none => Except.error PyError.jsonDecodeError

/-- The request built by `update_bug`:
`PUT \x7bBUGZILLA_API_URL\x7dbug/\x7bbug_id\x7d` with `json=bug_data` and
params `\x7b"api_key": BUGZILLA_API_KEY\x7d`. -/
def update_bug_req (cfg : Config) (bug_id : String)
    (bug_data : List (String × Json)) : HttpRequest :=
  { method := Method.PUT
    url := cfg.apiUrl ++ "bug/" ++ bug_id
    params := [("api_key", cfg.apiKey)]
    body := some (Json.obj bug_data)
    verify := false
    headers := HEADERS }

/-- `update_bug`: any non-200 status (404 included) raises. -/
def update_bug (cfg : Config) (backend : Backend) (bug_id : String)
    (bug_data : List (String × Json)) : Except PyError Json :=
  match backend (update_bug_req cfg bug_id bug_data) with
  | HttpResult.connectionRefused => Except.error PyError.connectionError
  | HttpResult.timeout => Except.error PyError.timeoutError
  | HttpResult.response status body =>
    if status ≠ 200 then
      Except.error (PyError.valueError "Failed to update Bugzilla bug.")
    else
      match body with
      | some j => Except.ok j
      | none => Except.error PyError.jsonDecodeError

/-- The request built by `get_bug_comments`:
`GET \x7bBUGZILLA_API_URL\x7dbug/\x7bbug_id\x7d/comment` with params
`\x7b"api_key": BUGZILLA_API_KEY\x7d`. -/
def get_bug_comments_req (cfg : Config) (bug_id : String) : HttpRequest :=
  { method := Method.GET
    url := cfg.apiUrl ++ "bug/" ++ bug_id ++ "/comment"
    params := [("api_key", cfg.apiKey)]
    body := none
    verify := false
    headers := HEADERS }

/-- `get_bug_comments`: same 404 special case as `get_bug`. -/
def get_bug_comments (cfg : Config) (backend : Backend) (bug_id : String) :
    Except PyError Json :=
  match backend (get_bug_comments_req cfg bug_id) with
  | HttpResult.connectionRefused => Except.error PyError.connectionError
  | HttpResult.timeout => Except.error PyError.timeoutError
  | HttpResult.response status body =>
    if status ≠ 200 then
      if status = 404 then Except.ok notFoundJson
      else Except.error (PyError.valueError "Failed to fetch Bugzilla bug comments.")
    else
      match body with
      | some j => Except.ok j
      | none => Except.error PyError.jsonDecodeError

/-! ### Dict lemmas -/

theorem getParam_dictInsert_self (ps : List (String × String)) (k v : String) :
    getParam (dictInsert ps k v) k = some v := by
  induction ps with
  | nil => simp [dictInsert, getParam]
  | cons p rest ih =>
    by_cases h : p.1 = k
    · simp [dictInsert, h, getParam]
    · simp [dictInsert, h, getParam, ih]

theorem getParam_dictInsert_ne (ps : List (String × String)) (k v q : String)
    (h : k ≠ q) : getParam (dictInsert ps k v) q = getParam ps q := by
  induction ps with
  | nil => simp [dictInsert, getParam, h]
  | cons p rest ih =>
    by_cases hp : p.1 = k
    · simp [dictInsert, hp, getParam, h]
    · simp [dictInsert, hp, getParam, ih]

theorem dictMerge_cons (ps : List (String × String)) (p : String × String)
    (rest : List (String × String)) :
    dictMerge ps (p :: rest) = dictMerge (dictInsert ps p.1 p.2) rest := rfl

theorem getParam_dictMerge_not_mem (ps extra : List (String × String))
    (q : String) (h : ∀ p ∈ extra, p.1 ≠ q) :
    getParam (dictMerge ps extra) q = getParam ps q := by
  induction extra generalizing ps with
  | nil => rfl
  | cons p rest ih =>
    rw [dictMerge_cons]
    rw [ih _ (fun x hx => h x (List.mem_cons_of_mem p hx))]
    exact getParam_dictInsert_ne ps p.1 p.2 q (h p (List.mem_cons_self p rest))

theorem getParam_dictMerge_mem (extra : List (String × String)) :
    ∀ (ps : List (String × String)) (q v : String),
      (extra.map Prod.fst).Nodup → (q, v) ∈ extra →
      getParam (dictMerge ps extra) q = some v := by
  induction extra with
  | nil =>
    intro ps q v _ hmem
    cases hmem
  | cons p rest ih =>
    intro ps q v hnd hmem
    rw [List.map_cons, List.nodup_cons] at hnd
    rw [dictMerge_cons]
    rcases List.mem_cons.mp hmem with heq | hrest
    · subst heq
      have hout : ∀ x ∈ rest, x.1 ≠ q := by
        intro x hx hxq
        have h1 : x.1 ∈ rest.map Prod.fst := List.mem_map_of_mem Prod.fst hx
        rw [hxq] at h1
        exact hnd.1 h1
      rw [getParam_dictMerge_not_mem _ _ _ hout]
      exact getParam_dictInsert_self ps q v
    · exact ih _ q v hnd.2 hrest

/-! ### Concrete fixtures used in witnesses and counterexamples -/

/-- A concrete configuration. -/
def cfg0 : Config := { apiUrl := "https://bugzilla.example/rest/", apiKey := "secret" }

/-- A backend that answers every request with HTTP 404. -/
def backend404 : Backend := fun _ => HttpResult.response 404 none

/-- A concrete JSON body. -/
def body0 : Json := Json.obj [("bugs", Json.arr []), ("faults", Json.arr [])]

/-- A backend that answers POST requests with HTTP 201 and everything else
with HTTP 200, always with body `body0`. -/
def backendOk : Backend := fun req =>
  match req.method with
  | Method.POST => HttpResult.response 201 (some body0)
  | _ => HttpResult.response 200 (some body0)

/-- A backend on which every connection is refused. -/
def backendRefused : Backend := fun _ => HttpResult.connectionRefused

/-- A backend that answers every request with HTTP 500. -/
def backend500 : Backend := fun _ => HttpResult.response 500 none

/-- A backend that answers every request with HTTP 200 and body `body0`. -/
def backend200 : Backend := fun _ => HttpResult.response 200 (some body0)

/-! ### Claims -/

/-- Claim C1: for each of the three lookup-by-id operations (`get_bug`,
`get_bug_history`, `get_bug_comments`), whenever the backend responds with
HTTP status 404, the operation returns `\x7b"error": "Bug not found"\x7d` as a
normal (non-exceptional) result and does not raise. -/
theorem c1_lookup_404_returns_not_found (cfg : Config) (backend : Backend)
    (bug_ids bid1 bid2 new_since : String) (b1 b2 b3 : Option Json)
    (h1 : backend (get_bug_req cfg bug_ids) = HttpResult.response 404 b1)
    (h2 : backend (get_bug_history_req cfg bid1 new_since) = HttpResult.response 404 b2)
    (h3 : backend (get_bug_comments_req cfg bid2) = HttpResult.response 404 b3) :
    get_bug cfg backend bug_ids = Except.ok notFoundJson ∧
    get_bug_history cfg backend bid1 new_since = Except.ok notFoundJson ∧
    get_bug_comments cfg backend bid2 = Except.ok notFoundJson := by
  unfold get_bug get_bug_history get_bug_comments
  rw [h1, h2, h3]
  simp

/-- Witness for C1 at a concrete backend that answers 404 everywhere. -/
theorem c1_witness :
    backend404 (get_bug_req cfg0 "1") = HttpResult.response 404 none ∧
    get_bug cfg0 backend404 "1" = Except.ok notFoundJson ∧
    get_bug_history cfg0 backend404 "2" "1970-01-01" = Except.ok notFoundJson ∧
    get_bug_comments cfg0 backend404 "3" = Except.ok notFoundJson := by
  refine ⟨rfl, ?_⟩
  exact c1_lookup_404_returns_not_found cfg0 backend404 "1" "2" "3"
    "1970-01-01" none none none rfl rfl rfl

/-- Claim C2: for every one of the six operations, a backend response with
the success status for that operation (200 for the GET operations and
`update_bug`, 201 for `create_bug`) and JSON body `B` makes the operation
return exactly `B`, unchanged. -/
theorem c2_success_passthrough (cfg : Config) (backend : Backend)
    (bug_ids bid1 bid2 bid3 new_since : String)
    (q : List (String × String)) (bd ud : List (String × Json))
    (B1 B2 B3 B4 B5 B6 : Json)
    (h1 : backend (get_bug_req cfg bug_ids) = HttpResult.response 200 (some B1))
    (h2 : backend (get_bug_history_req cfg bid1 new_since) = HttpResult.response 200 (some B2))
    (h3 : backend (search_bugs_req cfg q) = HttpResult.response 200 (some B3))
    (h4 : backend (create_bug_req cfg bd) = HttpResult.response 201 (some B4))
    (h5 : backend (update_bug_req cfg bid2 ud) = HttpResult.response 200 (some B5))
    (h6 : backend (get_bug_comments_req cfg bid3) = HttpResult.response 200 (some B6)) :
    get_bug cfg backend bug_ids = Except.ok B1 ∧
    get_bug_history cfg backend bid1 new_since = Except.ok B2 ∧
    search_bugs cfg backend q = Except.ok B3 ∧
    create_bug cfg backend bd = Except.ok B4 ∧
    update_bug cfg backend bid2 ud = Except.ok B5 ∧
    get_bug_comments cfg backend bid3 = Except.ok B6 := by
  unfold get_bug get_bug_history search_bugs create_bug update_bug get_bug_comments
  rw [h1, h2, h3, h4, h5, h6]
  simp

/-- Witness for C2 at a concrete backend that answers 201 to POST and 200
otherwise, always with body `body0`. -/
theorem c2_witness :
    get_bug cfg0 backendOk "1" = Except.ok body0 ∧
    get_bug_history cfg0 backendOk "2" "1970-01-01" = Except.ok body0 ∧
    search_bugs cfg0 backendOk [] = Except.ok body0 ∧
    create_bug cfg0 backendOk [] = Except.ok body0 ∧
    update_bug cfg0 backendOk "3" [] = Except.ok body0 ∧
    get_bug_comments cfg0 backendOk "4" = Except.ok body0 := by
  exact c2_success_passthrough cfg0 backendOk "1" "2" "3" "4" "1970-01-01"
    [] [] [] body0 body0 body0 body0 body0 body0 rfl rfl rfl rfl rfl rfl

theorem getParam_dictInsert_isSome (ps : List (String × String)) (k v q : String)
    (h : (getParam ps q).isSome = true) :
    (getParam (dictInsert ps k v) q).isSome = true := by
  by_cases hk : k = q
  · subst hk
    rw [getParam_dictInsert_self]
    rfl
  · rw [getParam_dictInsert_ne ps k v q hk]
    exact h

theorem getParam_dictMerge_isSome (extra : List (String × String)) :
    ∀ (ps : List (String × String)) (q : String),
      (getParam ps q).isSome = true →
      (getParam (dictMerge ps extra) q).isSome = true := by
  induction extra with
  | nil =>
    intro ps q h
    exact h
  | cons p rest ih =>
    intro ps q h
    rw [dictMerge_cons]
    exact ih _ q (getParam_dictInsert_isSome ps p.1 p.2 q h)

/-- Counterexample to C3: in `search_bugs`, a caller-supplied `"api_key"`
entry in `query_strs` makes the outbound request carry the caller's value,
not the configured credential. -/
theorem c3_counterexample :
    getParam (search_bugs_req cfg0 [("api_key", "evil")]).params "api_key" = some "evil" ∧
    some "evil" ≠ some cfg0.apiKey := by
  constructor
  · decide
  · decide

/-- Claim C3 (amended): every outbound request includes an `api_key` query
parameter; for the five operations other than `search_bugs` it always equals
the configured credential, and for `search_bugs` it equals the configured
credential whenever the caller's `query_strs` does not itself contain the
key `"api_key"` (a caller-supplied `"api_key"` overrides it, see C9). -/
theorem c3_amended_api_key_forwarding (cfg : Config)
    (bug_ids bid1 bid2 bid3 new_since : String)
    (bd ud : List (String × Json)) :
    getParam (get_bug_req cfg bug_ids).params "api_key" = some cfg.apiKey ∧
    getParam (get_bug_history_req cfg bid1 new_since).params "api_key" = some cfg.apiKey ∧
    getParam (create_bug_req cfg bd).params "api_key" = some cfg.apiKey ∧
    getParam (update_bug_req cfg bid2 ud).params "api_key" = some cfg.apiKey ∧
    getParam (get_bug_comments_req cfg bid3).params "api_key" = some cfg.apiKey ∧
    (∀ q : List (String × String), containsKey q "api_key" = false →
      getParam (search_bugs_req cfg q).params "api_key" = some cfg.apiKey) ∧
    (∀ q : List (String × String), ∃ v : String,
      getParam (search_bugs_req cfg q).params "api_key" = some v) := by
  refine ⟨?_, ?_, ?_, ?_, ?_, ?_, ?_⟩
  · simp [get_bug_req, getParam]
  · simp [get_bug_history_req, getParam]
  · simp [create_bug_req, getParam]
  · simp [update_bug_req, getParam]
  · simp [get_bug_comments_req, getParam]
  · intro q hq
    have hout : ∀ p ∈ q, p.1 ≠ "api_key" := by
      intro p hp
      have := List.any_eq_false.mp hq p hp
      simpa using this
    show getParam (dictMerge [("api_key", cfg.apiKey)] q) "api_key" = some cfg.apiKey
    rw [getParam_dictMerge_not_mem _ _ _ hout]
    simp [getParam]
  · intro q
    have hbase : (getParam [("api_key", cfg.apiKey)] "api_key").isSome = true := by
      simp [getParam]
    have h := getParam_dictMerge_isSome q [("api_key", cfg.apiKey)] "api_key" hbase
    exact Option.isSome_iff_exists.mp h

/-- Witness for the amended C3 at concrete inputs. -/
theorem c3_witness :
    getParam (get_bug_req cfg0 "1").params "api_key" = some cfg0.apiKey ∧
    containsKey [("limit", "10")] "api_key" = false ∧
    getParam (search_bugs_req cfg0 [("limit", "10")]).params "api_key" = some cfg0.apiKey := by
  have h := c3_amended_api_key_forwarding cfg0 "1" "2" "3" "4" "1970-01-01" [] []
  exact ⟨h.1, by decide, h.2.2.2.2.2.1 [("limit", "10")] (by decide)⟩

/-- Claim C9: in `search_bugs`, a caller-supplied `"api_key"` entry in
`query_strs` (a dict, so its keys are distinct) overrides the configured
credential, because `query_strs` is merged after the credential. -/
theorem c9_caller_api_key_overrides (cfg : Config)
    (q : List (String × String)) (v : String)
    (hnd : (q.map Prod.fst).Nodup) (hmem : ("api_key", v) ∈ q) :
    getParam (search_bugs_req cfg q).params "api_key" = some v := by
  show getParam (dictMerge [("api_key", cfg.apiKey)] q) "api_key" = some v
  exact getParam_dictMerge_mem q [("api_key", cfg.apiKey)] "api_key" v hnd hmem

/-- Witness for C9 at a concrete query dict. -/
theorem c9_witness :
    ((([("api_key", "evil")] : List (String × String)).map Prod.fst).Nodup ∧
      ("api_key", "evil") ∈ [("api_key", "evil")]) ∧
    getParam (search_bugs_req cfg0 [("api_key", "evil")]).params "api_key" = some "evil" :=
  ⟨⟨by decide, by decide⟩,
    c9_caller_api_key_overrides cfg0 [("api_key", "evil")] "evil" (by decide) (by decide)⟩

/-- The possible terminal outcomes of one tool call: a JSON success payload
(the NotFound marker `notFoundJson` is one such payload), the explicit
`ValueError` whose message names the operation, or one of the exceptions that
propagate out of the `requests` call untouched. -/
def SettledOutcome (r : Except PyError Json) (msg : String) : Prop :=
  (∃ j : Json, r = Except.ok j) ∨
  r = Except.error (PyError.valueError msg) ∨
  r = Except.error PyError.connectionError ∨
  r = Except.error PyError.timeoutError ∨
  r = Except.error PyError.jsonDecodeError

theorem settled_get_bug (cfg : Config) (backend : Backend) (bug_ids : String) :
    SettledOutcome (get_bug cfg backend bug_ids)
      "Failed to fetch Bugzilla bug details." := by
  unfold SettledOutcome get_bug
  split
  · exact Or.inr (Or.inr (Or.inl rfl))
  · exact Or.inr (Or.inr (Or.inr (Or.inl rfl)))
  · split
    · split
      · exact Or.inl ⟨notFoundJson, rfl⟩
      · exact Or.inr (Or.inl rfl)
    · split
      · exact Or.inl ⟨_, rfl⟩
      · exact Or.inr (Or.inr (Or.inr (Or.inr rfl)))

theorem settled_get_bug_history (cfg : Config) (backend : Backend)
    (bug_id new_since : String) :
    SettledOutcome (get_bug_history cfg backend bug_id new_since)
      "Failed to fetch Bugzilla bug history." := by
  unfold SettledOutcome get_bug_history
  split
  · exact Or.inr (Or.inr (Or.inl rfl))
  · exact Or.inr (Or.inr (Or.inr (Or.inl rfl)))
  · split
    · split
      · exact Or.inl ⟨notFoundJson, rfl⟩
      · exact Or.inr (Or.inl rfl)
    · split
      · exact Or.inl ⟨_, rfl⟩
      · exact Or.inr (Or.inr (Or.inr (Or.inr rfl)))

theorem settled_search_bugs (cfg : Config) (backend : Backend)
    (q : List (String × String)) :
    SettledOutcome (search_bugs cfg backend q)
      "Failed to search Bugzilla bugs." := by
  unfold SettledOutcome search_bugs
  split
  · exact Or.inr (Or.inr (Or.inl rfl))
  · exact Or.inr (Or.inr (Or.inr (Or.inl rfl)))
  · split
    · exact Or.inr (Or.inl rfl)
    · split
      · exact Or.inl ⟨_, rfl⟩
      · exact Or.inr (Or.inr (Or.inr (Or.inr rfl)))

theorem settled_create_bug (cfg : Config) (backend : Backend)
    (bd : List (String × Json)) :
    SettledOutcome (create_bug cfg backend bd)
      "Failed to create Bugzilla bug." := by
  unfold SettledOutcome create_bug
  split
  · exact Or.inr (Or.inr (Or.inl rfl))
  · exact Or.inr (Or.inr (Or.inr (Or.inl rfl)))
  · split
    · exact Or.inr (Or.inl rfl)
    · split
      · exact Or.inl ⟨_, rfl⟩
      · exact Or.inr (Or.inr (Or.inr (Or.inr rfl)))

theorem settled_update_bug (cfg : Config) (backend : Backend) (bug_id : String)
    (bd : List (String × Json)) :
    SettledOutcome (update_bug cfg backend bug_id bd)
      "Failed to update Bugzilla bug." := by
  unfold SettledOutcome update_bug
  split
  · exact Or.inr (Or.inr (Or.inl rfl))
  · exact Or.inr (Or.inr (Or.inr (Or.inl rfl)))
  · split
    · exact Or.inr (Or.inl rfl)
    · split
      · exact Or.inl ⟨_, rfl⟩
      · exact Or.inr (Or.inr (Or.inr (Or.inr rfl)))

theorem settled_get_bug_comments (cfg : Config) (backend : Backend)
    (bug_id : String) :
    SettledOutcome (get_bug_comments cfg backend bug_id)
      "Failed to fetch Bugzilla bug comments." := by
  unfold SettledOutcome get_bug_comments
  split
  · exact Or.inr (Or.inr (Or.inl rfl))
  · exact Or.inr (Or.inr (Or.inr (Or.inl rfl)))
  · split
    · split
      · exact Or.inl ⟨notFoundJson, rfl⟩
      · exact Or.inr (Or.inl rfl)
    · split
      · exact Or.inl ⟨_, rfl⟩
      · exact Or.inr (Or.inr (Or.inr (Or.inr rfl)))

/-- Counterexample to C4: on a connection-refused backend, `get_bug`
terminates with `PyError.connectionError`, while a non-success HTTP status
(500) terminates with the explicit `ValueError` — two different failure
classes, contradicting "same failure class". -/
theorem c4_counterexample :
    get_bug cfg0 backendRefused "1" = Except.error PyError.connectionError ∧
    get_bug cfg0 backend500 "1" =
      Except.error (PyError.valueError "Failed to fetch Bugzilla bug details.") ∧
    PyError.connectionError ≠
      PyError.valueError "Failed to fetch Bugzilla bug details." := by
  refine ⟨rfl, rfl, by decide⟩

/-- Claim C4 (amended): transport-level failures propagate with their own
failure classes (connection error, timeout, JSON-decode error), distinct
from the "request failed" `ValueError` raised on non-success statuses; still,
every call terminates in a JSON success payload (the NotFound marker
included), the `ValueError` naming the failed operation, or one of those
propagated exceptions. -/
theorem c4_amended_termination (cfg : Config) (backend : Backend)
    (bug_ids bid1 bid2 bid3 new_since : String)
    (q : List (String × String)) (bd ud : List (String × Json)) :
    SettledOutcome (get_bug cfg backend bug_ids)
      "Failed to fetch Bugzilla bug details." ∧
    SettledOutcome (get_bug_history cfg backend bid1 new_since)
      "Failed to fetch Bugzilla bug history." ∧
    SettledOutcome (search_bugs cfg backend q)
      "Failed to search Bugzilla bugs." ∧
    SettledOutcome (create_bug cfg backend bd)
      "Failed to create Bugzilla bug." ∧
    SettledOutcome (update_bug cfg backend bid2 ud)
      "Failed to update Bugzilla bug." ∧
    SettledOutcome (get_bug_comments cfg backend bid3)
      "Failed to fetch Bugzilla bug comments." ∧
    get_bug cfg backendRefused bug_ids = Except.error PyError.connectionError ∧
    PyError.connectionError ≠
      PyError.valueError "Failed to fetch Bugzilla bug details." :=
  ⟨settled_get_bug cfg backend bug_ids,
    settled_get_bug_history cfg backend bid1 new_since,
    settled_search_bugs cfg backend q,
    settled_create_bug cfg backend bd,
    settled_update_bug cfg backend bid2 ud,
    settled_get_bug_comments cfg backend bid3,
    rfl, by decide⟩

/-- Claim C5: for `search_bugs` and `create_bug`, an HTTP 404 response
raises the "request failed" `ValueError`; the NotFound special-casing does
not apply to these operations. -/
theorem c5_search_create_404_raises (cfg : Config) (backend : Backend)
    (q : List (String × String)) (bd : List (String × Json))
    (b1 b2 : Option Json)
    (h1 : backend (search_bugs_req cfg q) = HttpResult.response 404 b1)
    (h2 : backend (create_bug_req cfg bd) = HttpResult.response 404 b2) :
    search_bugs cfg backend q =
      Except.error (PyError.valueError "Failed to search Bugzilla bugs.") ∧
    create_bug cfg backend bd =
      Except.error (PyError.valueError "Failed to create Bugzilla bug.") := by
  unfold search_bugs create_bug
  rw [h1, h2]
  simp

/-- Witness for C5 at a concrete 404 backend. -/
theorem c5_witness :
    backend404 (search_bugs_req cfg0 []) = HttpResult.response 404 none ∧
    search_bugs cfg0 backend404 [] =
      Except.error (PyError.valueError "Failed to search Bugzilla bugs.") ∧
    create_bug cfg0 backend404 [] =
      Except.error (PyError.valueError "Failed to create Bugzilla bug.") := by
  refine ⟨rfl, ?_⟩
  exact c5_search_create_404_raises cfg0 backend404 [] [] none none rfl rfl

/-- Claim C6: `create_bug` treats HTTP 200 as a failure; any response status
other than exactly 201 raises the "request failed" `ValueError`. -/
theorem c6_create_bug_only_201 (cfg : Config) (backend : Backend)
    (bd : List (String × Json)) (s : Nat) (b : Option Json)
    (h : backend (create_bug_req cfg bd) = HttpResult.response s b)
    (hs : s ≠ 201) :
    create_bug cfg backend bd =
      Except.error (PyError.valueError "Failed to create Bugzilla bug.") := by
  unfold create_bug
  rw [h]
  simp [hs]

/-- Witness for C6 at a concrete backend answering HTTP 200. -/
theorem c6_witness :
    backend200 (create_bug_req cfg0 []) = HttpResult.response 200 (some body0) ∧
    (200 : Nat) ≠ 201 ∧
    create_bug cfg0 backend200 [] =
      Except.error (PyError.valueError "Failed to create Bugzilla bug.") :=
  ⟨rfl, by decide,
    c6_create_bug_only_201 cfg0 backend200 [] 200 (some body0) rfl (by decide)⟩

/-- Claim C7: for every `bug_id` and `bug_data`, the JSON body `update_bug`
sends to the backend is exactly the JSON serialization of the `bug_data`
argument, with no fields added, removed or modified. -/
theorem c7_update_bug_body_passthrough (cfg : Config) (bug_id : String)
    (bug_data : List (String × Json)) :
    (update_bug_req cfg bug_id bug_data).body = some (Json.obj bug_data) := rfl

/-- Two consecutive `get_bug` calls with the same argument against the same
backend, modelling the fact that the Python module keeps no mutable state
between tool calls (only the immutable URL/key/headers constants and the
logger, whose output feeds back into nothing). -/
def get_bug_twice (cfg : Config) (backend : Backend) (bug_ids : String) :
    Except PyError Json × Except PyError Json :=
  (get_bug cfg backend bug_ids, get_bug cfg backend bug_ids)

/-- Claim C8: two `get_bug` calls with the same `bug_ids` against an
unchanged backend yield identical results; moreover the result depends only
on the backend's answer to the one request this call issues, so it cannot
depend on any prior operation's result. -/
theorem c8_get_bug_idempotent (cfg : Config) (backend other : Backend)
    (bug_ids : String)
    (h : backend (get_bug_req cfg bug_ids) = other (get_bug_req cfg bug_ids)) :
    (get_bug_twice cfg backend bug_ids).1 = (get_bug_twice cfg backend bug_ids).2 ∧
    get_bug cfg backend bug_ids = get_bug cfg other bug_ids := by
  constructor
  · rfl
  · unfold get_bug
    rw [h]

/-- Witness for C8: the two backends agree on the request, so the results
agree, at a concrete input. -/
theorem c8_witness :
    backend404 (get_bug_req cfg0 "1") = backend404 (get_bug_req cfg0 "1") ∧
    (get_bug_twice cfg0 backend404 "1").1 = (get_bug_twice cfg0 backend404 "1").2 ∧
    get_bug cfg0 backend404 "1" = get_bug cfg0 backend404 "1" :=
  ⟨rfl, c8_get_bug_idempotent cfg0 backend404 backend404 "1" rfl⟩

/-- Claim C10: every request built by any of the six operations carries
`verify := false` — TLS certificate verification is disabled on every
outbound request. -/
theorem c10_verify_disabled (cfg : Config)
    (bug_ids bid1 bid2 bid3 new_since : String)
    (q : List (String × String)) (bd ud : List (String × Json)) :
    (get_bug_req cfg bug_ids).verify = false ∧
    (get_bug_history_req cfg bid1 new_since).verify = false ∧
    (search_bugs_req cfg q).verify = false ∧
    (create_bug_req cfg bd).verify = false ∧
    (update_bug_req cfg bid2 ud).verify = false ∧
    (get_bug_comments_req cfg bid3).verify = false :=
  ⟨rfl, rfl, rfl, rfl, rfl, rfl⟩

end BugzillaMCP
